import Mathlib

/-!
Shallow embedding of the `phot::PhotonVisibilityService` subsystem of larsim
(`larsim/PhotonPropagation/PhotonVisibilityService.{h,cc}`).

Real-valued quantities (`double`/`float` in the source) are modelled by exact
rationals `ℚ`; the claims under verification are about control flow and the
algebraic shape of the computed values, not about floating-point rounding.
Fallible operations (fatal framework exceptions, null-pointer dereferences)
are modelled with `Except String`.

Components of this repository that the service uses but whose sources are not
available here (`larsim/Simulation/PhotonVoxels`, the `PhotonLibrary` backing
store and the `LibraryMappingTools` mapping tools) are modelled from the
specification; each such definition carries a doc comment saying so.
-/

/-- A 3D point (the embedding of `geo::Point_t`), with rational coordinates. -/
structure Point_t where
  x : ℚ
  y : ℚ
  z : ℚ
deriving DecidableEq

/-- The voxel grid definition (`sim::PhotonVoxelDef`): axis-aligned bounding
box and per-axis voxel counts. -/
structure PhotonVoxelDef where
  xmin : ℚ
  xmax : ℚ
  ymin : ℚ
  ymax : ℚ
  zmin : ℚ
  zmax : ℚ
  nx : ℕ
  ny : ℕ
  nz : ℕ
deriving DecidableEq

/-- Modelled from the spec: voxel pitch along x (`sim::PhotonVoxelDef` is part
of this repository but its source is not available here). -/
def PhotonVoxelDef.stepX (vd : PhotonVoxelDef) : ℚ := (vd.xmax - vd.xmin) / vd.nx

/-- Modelled from the spec: voxel pitch along y. -/
def PhotonVoxelDef.stepY (vd : PhotonVoxelDef) : ℚ := (vd.ymax - vd.ymin) / vd.ny

/-- Modelled from the spec: voxel pitch along z. -/
def PhotonVoxelDef.stepZ (vd : PhotonVoxelDef) : ℚ := (vd.zmax - vd.zmin) / vd.nz

/-- Modelled from the spec: position of a point in voxel-step coordinates
along x (0 at `xmin`, `nx` at `xmax`). -/
def PhotonVoxelDef.rX (vd : PhotonVoxelDef) (p : Point_t) : ℚ := (p.x - vd.xmin) / vd.stepX

/-- Modelled from the spec: position in voxel-step coordinates along y. -/
def PhotonVoxelDef.rY (vd : PhotonVoxelDef) (p : Point_t) : ℚ := (p.y - vd.ymin) / vd.stepY

/-- Modelled from the spec: position in voxel-step coordinates along z. -/
def PhotonVoxelDef.rZ (vd : PhotonVoxelDef) (p : Point_t) : ℚ := (p.z - vd.zmin) / vd.stepZ

/-- Modelled from the spec: total number of voxels of the grid. -/
def PhotonVoxelDef.GetNVoxels (vd : PhotonVoxelDef) : ℕ := vd.nx * vd.ny * vd.nz

/-- Modelled from the spec: `sim::PhotonVoxelDef::GetVoxelID`, the
deterministic row-major linear index of the voxel containing a point; points
outside the bounding box produce a mathematically extrapolated index. -/
def PhotonVoxelDef.GetVoxelID (vd : PhotonVoxelDef) (p : Point_t) : ℤ :=
  ⌊vd.rX p⌋ + ⌊vd.rY p⌋ * vd.nx + ⌊vd.rZ p⌋ * (vd.nx * vd.ny)

/-- Modelled from the spec: whether a point lies inside the configured
bounding box (the interpolation domain). -/
def PhotonVoxelDef.inVolume (vd : PhotonVoxelDef) (p : Point_t) : Prop :=
  vd.xmin ≤ p.x ∧ p.x ≤ vd.xmax ∧ vd.ymin ≤ p.y ∧ p.y ≤ vd.ymax ∧
    vd.zmin ≤ p.z ∧ p.z ≤ vd.zmax

instance (vd : PhotonVoxelDef) (p : Point_t) : Decidable (vd.inVolume p) := by
  unfold PhotonVoxelDef.inVolume; infer_instance

/-- One (voxel ID, interpolation weight) pair produced by the neighbor query
(`sim::PhotonVoxelDef::NeiInfo`); an `id` of `-1` is the sentinel for an
invalid neighbor. -/
structure NeiInfo where
  id : ℤ
  weight : ℚ
deriving DecidableEq

/-- Modelled from the spec: one corner of the trilinear-interpolation cube
around a point given in voxel-step coordinates `(rx, ry, rz)`; the corner
offset `(dx, dy, dz)` ranges over `{0, 1}` per axis.  A corner whose voxel
center falls outside the grid yields the invalid sentinel; otherwise its
weight is the product of the per-axis trilinear factors (the distance of the
point to the neighboring voxel center, in voxel pitches). -/
def PhotonVoxelDef.neiCorner (vd : PhotonVoxelDef) (rx ry rz : ℚ) (dx dy dz : ℤ) : NeiInfo :=
  let ix : ℤ := ⌊rx + dx - 1/2⌋
  let iy : ℤ := ⌊ry + dy - 1/2⌋
  let iz : ℤ := ⌊rz + dz - 1/2⌋
  if ix < 0 ∨ iy < 0 ∨ iz < 0 ∨ (vd.nx : ℤ) ≤ ix ∨ (vd.ny : ℤ) ≤ iy ∨ (vd.nz : ℤ) ≤ iz then
    ⟨-1, 0⟩
  else
    ⟨ix + iy * vd.nx + iz * (vd.nx * vd.ny),
      (1 - |(ix : ℚ) + 1/2 - rx|) * (1 - |(iy : ℚ) + 1/2 - ry|) * (1 - |(iz : ℚ) + 1/2 - rz|)⟩

/-- Modelled from the spec: `sim::PhotonVoxelDef::GetNeighboringVoxelIDs`
(part of this repository, source not available here).  Returns `none` when the
point lies outside the interpolation domain; otherwise the (up to 8)
surrounding voxel centers with trilinear weights, invalid neighbors flagged by
the sentinel ID `-1`. -/
def PhotonVoxelDef.GetNeighboringVoxelIDs (vd : PhotonVoxelDef) (p : Point_t) :
    Option (List NeiInfo) :=
  if vd.inVolume p then
    let rx := vd.rX p
    let ry := vd.rY p
    let rz := vd.rZ p
    some [vd.neiCorner rx ry rz 0 0 0, vd.neiCorner rx ry rz 0 0 1,
          vd.neiCorner rx ry rz 0 1 0, vd.neiCorner rx ry rz 0 1 1,
          vd.neiCorner rx ry rz 1 0 0, vd.neiCorner rx ry rz 1 0 1,
          vd.neiCorner rx ry rz 1 1 0, vd.neiCorner rx ry rz 1 1 1]
  else none

/-- Modelled from the spec: the `phot::PhotonLibrary` backing table (part of
this repository, source not available here).  Per (voxel, sensor library
index) it stores the direct-visibility count, the reflected count, the
reflected first-arrival time, the fitted timing parameters and an opaque
handle (`ℕ`) to the fitted time-distribution function, plus optional embedded
voxel-definition metadata. -/
structure PhotonLibrary where
  nVoxels : ℕ
  nOpDets : ℕ
  hasReflected : Bool
  hasReflT0 : Bool
  nTimingPars : ℕ
  count : ℤ → ℕ → ℚ
  reflCount : ℤ → ℕ → ℚ
  reflT0 : ℤ → ℕ → ℚ
  timingPar : ℤ → ℕ → ℕ → ℚ
  timingTF1 : ℤ → ℕ → ℕ
  validVoxel : ℤ → Bool
  voxelDef : Option PhotonVoxelDef

/-- Modelled from the spec: `PhotonLibrary::CreateEmptyLibrary` allocates a
zero-filled table with no recorded entries and no metadata. -/
def PhotonLibrary.CreateEmptyLibrary (nVoxels nOpDets : ℕ) (storeReflected storeReflT0 : Bool)
    (nTimingPars : ℕ) : PhotonLibrary where
  nVoxels := nVoxels
  nOpDets := nOpDets
  hasReflected := storeReflected
  hasReflT0 := storeReflT0
  nTimingPars := nTimingPars
  count := fun _ _ => 0
  reflCount := fun _ _ => 0
  reflT0 := fun _ _ => 0
  timingPar := fun _ _ _ => 0
  timingTF1 := fun _ _ => 0
  validVoxel := fun _ => false
  voxelDef := none

/-- Modelled from the spec: `PhotonLibrary::SetCount` records a
direct-visibility entry (which makes the voxel valid). -/
def PhotonLibrary.SetCount (l : PhotonLibrary) (v : ℤ) (c : ℕ) (N : ℚ) : PhotonLibrary :=
  { l with count := fun v' c' => if v' = v ∧ c' = c then N else l.count v' c',
           validVoxel := fun v' => if v' = v then true else l.validVoxel v' }

/-- Modelled from the spec: `PhotonLibrary::SetReflCount`. -/
def PhotonLibrary.SetReflCount (l : PhotonLibrary) (v : ℤ) (c : ℕ) (N : ℚ) : PhotonLibrary :=
  { l with reflCount := fun v' c' => if v' = v ∧ c' = c then N else l.reflCount v' c',
           validVoxel := fun v' => if v' = v then true else l.validVoxel v' }

/-- Modelled from the spec: `PhotonLibrary::SetReflT0`. -/
def PhotonLibrary.SetReflT0 (l : PhotonLibrary) (v : ℤ) (c : ℕ) (T0 : ℚ) : PhotonLibrary :=
  { l with reflT0 := fun v' c' => if v' = v ∧ c' = c then T0 else l.reflT0 v' c' }

/-- Modelled from the spec: `PhotonLibrary::SetTimingPar`. -/
def PhotonLibrary.SetTimingPar (l : PhotonLibrary) (v : ℤ) (c : ℕ) (par : ℚ) (parnum : ℕ) :
    PhotonLibrary :=
  { l with timingPar := fun v' c' k =>
      if v' = v ∧ c' = c ∧ k = parnum then par else l.timingPar v' c' k }

/-- Modelled from the spec: `PhotonLibrary::SetTimingTF1` (the fitted function
is an opaque handle). -/
def PhotonLibrary.SetTimingTF1 (l : PhotonLibrary) (v : ℤ) (c : ℕ) (func : ℕ) : PhotonLibrary :=
  { l with timingTF1 := fun v' c' => if v' = v ∧ c' = c then func else l.timingTF1 v' c' }

/-- Modelled from the spec: the `phot::IPhotonMappingTransformations` tool
interface (part of this repository, source not available here): symmetry
transform from detector space into library space plus the sensor index
mappings between physical channels and library slots. -/
structure PhotonMapping where
  detectorToLibrary : Point_t → Point_t
  opDetToLibraryIndex : Point_t → ℕ → ℕ
  libraryMappingSize : Point_t → ℕ
  opDetMappingSize : ℕ
  opDetToLibrary : Point_t → ℕ → ℕ

/-- Modelled from the spec: `applyOpDetMapping` expands/reorders a
library-space value vector into physical-channel space: entry `ch` of the
result is the library value at the library slot the mapping assigns to
physical channel `ch`. -/
def applyOpDetMapping {α : Type} (m : PhotonMapping) (p : Point_t) (f : ℕ → α) : List α :=
  (List.range m.opDetMappingSize).map fun ch => f (m.opDetToLibrary p ch)

/-- Modelled from the spec: the identity mapping tool
(`PhotonMappingIdentityTransformations`): pass-through coordinates and
indices. -/
def identityMapping (n : ℕ) : PhotonMapping where
  detectorToLibrary := fun p => p
  opDetToLibraryIndex := fun _ ch => ch
  libraryMappingSize := fun _ => n
  opDetMappingSize := n
  opDetToLibrary := fun _ ch => ch

/-- Which mapping tool `art::make_tool` is asked to build by the constructor. -/
inductive MappingToolCfg where
  | fromPset
  | xMirror
  | identity
deriving DecidableEq

/-- The subset of the FHiCL parameter set read by
`PhotonVisibilityService::reconfigure` and by the constructor that bears on
the claims; `none` models an absent key.  The large numeric-table blocks
gated by `IncludePropTime` / `UseNhitsModel` are abstracted to presence flags
(`propTimeParams`, `nhitsParams`): reading them fails exactly when the gate is
on and the tables are absent. -/
structure Pset where
  LibraryBuildJob : Option Bool
  DUNE10ktParameterization : Option Bool
  HybridLibrary : Option Bool
  LibraryFile : Option String
  DoNotLoadLibrary : Option Bool
  StoreReflected : Option Bool
  StoreReflT0 : Option Bool
  IncludePropTime : Option Bool
  UseNhitsModel : Option Bool
  UseCryoBoundary : Option Bool
  Interpolate : Option Bool
  ReflectOverZeroX : Option Bool
  ParametrisedTimePropagation : Option Bool
  ParametrisedTimePropagationNParameters : Option ℕ
  XMin : Option ℚ
  XMax : Option ℚ
  YMin : Option ℚ
  YMax : Option ℚ
  ZMin : Option ℚ
  ZMax : Option ℚ
  NX : Option ℕ
  NY : Option ℕ
  NZ : Option ℕ
  Mapping : Option Unit
  propTimeParams : Bool
  nhitsParams : Bool

/-- The external world the service interacts with: the file-search result and
parsed content of the persisted library file, the geometry service
(`NOpDets`, cryostat boundaries), `art::make_tool`, and whether a
`TFileService` is available. -/
structure Env where
  fileFound : Bool
  fileLibrary : PhotonLibrary
  nOpDets : ℕ
  cryoBounds : ℚ × ℚ × ℚ × ℚ × ℚ × ℚ
  makeTool : MappingToolCfg → PhotonMapping
  hasTFileService : Bool

/-- The state of a `phot::PhotonVisibilityService` instance: the data members
the claims touch.  `fTheLibrary` is the lazily-populated library pointer
(`none` = null). -/
structure PhotonVisibilityService where
  fCurrentVoxel : ℤ
  fCurrentValue : ℚ
  fLibraryBuildJob : Bool
  fDoNotLoadLibrary : Bool
  fParameterization : Bool
  fHybrid : Bool
  fStoreReflected : Bool
  fStoreReflT0 : Bool
  fIncludePropTime : Bool
  fUseNhitsModel : Bool
  fUseCryoBoundary : Bool
  fParPropTime : Bool
  fParPropTime_npar : ℕ
  fInterpolate : Bool
  fReflectOverZeroX : Bool
  fLibraryFile : String
  fVoxelDef : PhotonVoxelDef
  fTheLibrary : Option PhotonLibrary
  fMapping : PhotonMapping
  warnings : List String

/-- A placeholder mapping; the constructor's member-initializer list leaves
`fMapping` unset until `art::make_tool` runs. -/
def trivialMapping : PhotonMapping where
  detectorToLibrary := fun p => p
  opDetToLibraryIndex := fun _ ch => ch
  libraryMappingSize := fun _ => 0
  opDetMappingSize := 0
  opDetToLibrary := fun _ ch => ch

/-- The member-initializer list of the constructor: every member zeroed /
false / null. -/
def initialPVS : PhotonVisibilityService where
  fCurrentVoxel := 0
  fCurrentValue := 0
  fLibraryBuildJob := false
  fDoNotLoadLibrary := false
  fParameterization := false
  fHybrid := false
  fStoreReflected := false
  fStoreReflT0 := false
  fIncludePropTime := false
  fUseNhitsModel := false
  fUseCryoBoundary := false
  fParPropTime := false
  fParPropTime_npar := 0
  fInterpolate := false
  fReflectOverZeroX := false
  fLibraryFile := ""
  fVoxelDef := ⟨0, 0, 0, 0, 0, 0, 0, 0, 0⟩
  fTheLibrary := none
  fMapping := trivialMapping
  warnings := []

/-- The warning text logged when a loaded library's voxel definition differs
from the configured one (`LoadLibrary`, `mf::LogWarning`). -/
def geometryMismatchWarning : String :=
  "Photon library reports a geometry different from the one configured"

/-- The warning text logged when the legacy `ReflectOverZeroX` key is used
without a `Mapping` block (constructor, `mf::LogWarning`). -/
def legacyReflectWarning : String :=
  "Please update the configuration replacing ReflectOverZeroX with a Mapping tool"

/-- The voxel-grid portion of `reconfigure` (source lines 288-314): skipped
entirely under `UseNhitsModel`; bounds from the cryostat when
`UseCryoBoundary`, otherwise the six required bound keys; `NX`/`NY`/`NZ`
always required in this branch. -/
def voxelBlock (env : Env) (p : Pset) (prev : PhotonVoxelDef) : Except String PhotonVoxelDef :=
  if p.UseNhitsModel.getD false then .ok prev
  else
    match (if p.UseCryoBoundary.getD false then some env.cryoBounds
           else match p.XMin, p.XMax, p.YMin, p.YMax, p.ZMin, p.ZMax with
                | some a, some b, some c, some d, some e, some f => some (a, b, c, d, e, f)
                | _, _, _, _, _, _ => none),
          p.NX, p.NY, p.NZ with
    | some (xmin, xmax, ymin, ymax, zmin, zmax), some nx, some ny, some nz =>
        .ok ⟨xmin, xmax, ymin, ymax, zmin, zmax, nx, ny, nz⟩
    | _, _, _, _ => .error "missing voxel grid configuration parameters"

/-- `PhotonVisibilityService::reconfigure` (source lines 256-383): reads the
configuration into the data members; a missing required key is a thrown
configuration error. -/
def PhotonVisibilityService.reconfigure (env : Env) (p : Pset)
    (s : PhotonVisibilityService) : Except String PhotonVisibilityService :=
  match p.DoNotLoadLibrary with
  | none => .error "missing parameter DoNotLoadLibrary"
  | some dnl =>
    match voxelBlock env p s.fVoxelDef with
    | .error e => .error e
    | .ok vd =>
      if (p.IncludePropTime.getD false) && !p.propTimeParams then
        .error "missing propagation time parametrization tables"
      else if (p.UseNhitsModel.getD false) && !p.nhitsParams then
        .error "missing semi-analytic correction tables"
      else
        .ok { s with
          fLibraryBuildJob := p.LibraryBuildJob.getD false
          fParameterization := p.DUNE10ktParameterization.getD false
          fHybrid := p.HybridLibrary.getD false
          fLibraryFile := p.LibraryFile.getD ""
          fDoNotLoadLibrary := dnl
          fStoreReflected := p.StoreReflected.getD false
          fStoreReflT0 := p.StoreReflT0.getD false
          fIncludePropTime := p.IncludePropTime.getD false
          fUseNhitsModel := p.UseNhitsModel.getD false
          fUseCryoBoundary := p.UseCryoBoundary.getD false
          fInterpolate := p.Interpolate.getD false
          fReflectOverZeroX := p.ReflectOverZeroX.getD false
          fParPropTime := p.ParametrisedTimePropagation.getD false
          fParPropTime_npar :=
            if p.ParametrisedTimePropagation.getD false then
              p.ParametrisedTimePropagationNParameters.getD 0
            else 0
          fVoxelDef := vd }

/-- The `PhotonVisibilityService` constructor (source lines 69-144): runs
`reconfigure`, then rejects the combination of the legacy `ReflectOverZeroX`
key with a `Mapping` tool block (fatal `art::errors::Configuration`), warns on
the legacy key alone, and finally builds the mapping tool. -/
def construct (env : Env) (p : Pset) : Except String PhotonVisibilityService :=
  match PhotonVisibilityService.reconfigure env p initialPVS with
  | .error e => .error e
  | .ok s =>
    if p.ReflectOverZeroX.isSome ∧ p.Mapping.isSome then
      .error "Configuration: both Mapping and ReflectOverZeroX specified"
    else
      let s1 := if p.ReflectOverZeroX.isSome then
          { s with warnings := s.warnings ++ [legacyReflectWarning] }
        else s
      .ok { s1 with fMapping :=
              env.makeTool (if p.Mapping.isSome then .fromPset
                            else if s1.fReflectOverZeroX then .xMirror else .identity) }

/-- `PhotonVisibilityService::LoadLibrary` (source lines 147-235): a no-op
once `fTheLibrary` is set; otherwise, in query mode, find and load the
persisted file (fatal if not found), supplying the configured voxel
definition when the file has no metadata and merely logging a warning when
the metadata disagrees with the configuration; in build (or no-load) mode,
create an empty library sized from the configured grid and geometry. -/
def PhotonVisibilityService.LoadLibrary (env : Env) (s : PhotonVisibilityService) :
    Except String PhotonVisibilityService :=
  if s.fTheLibrary.isSome then .ok s
  else if !s.fLibraryBuildJob && !s.fDoNotLoadLibrary then
    if !env.fileFound then .error "Unable to find photon library"
    else if s.fParameterization then .ok s
    else if s.fHybrid then
      .ok { s with fTheLibrary := some ({ env.fileLibrary with voxelDef := some s.fVoxelDef }) }
    else
      match env.fileLibrary.voxelDef with
      | none =>
        .ok { s with fTheLibrary := some ({ env.fileLibrary with voxelDef := some s.fVoxelDef }) }
      | some vd =>
        if s.fVoxelDef ≠ vd then
          .ok { s with fTheLibrary := some env.fileLibrary,
                       warnings := s.warnings ++ [geometryMismatchWarning] }
        else
          .ok { s with fTheLibrary := some env.fileLibrary }
  else
    if s.fLibraryBuildJob && !env.hasTFileService then
      .error "TFileService is required when building a photon library"
    else
      let lib := PhotonLibrary.CreateEmptyLibrary s.fVoxelDef.GetNVoxels env.nOpDets
        s.fStoreReflected s.fStoreReflT0 s.fParPropTime_npar
      .ok { s with fTheLibrary := some ({ lib with voxelDef := some s.fVoxelDef }) }

/-- `PhotonVisibilityService::LibLocation` (source lines 850-854). -/
def PhotonVisibilityService.LibLocation (s : PhotonVisibilityService) (p : Point_t) : Point_t :=
  s.fMapping.detectorToLibrary p

/-- `PhotonVisibilityService::VoxelAt` (header lines 327-331). -/
def PhotonVisibilityService.VoxelAt (s : PhotonVisibilityService) (p : Point_t) : ℤ :=
  s.fVoxelDef.GetVoxelID (s.LibLocation p)

/-- The pure read underlying `GetLibraryEntry`: direct or reflected count of a
(voxel, library sensor slot) pair of a loaded library. -/
def getLibraryEntryPure (lib : PhotonLibrary) (wantReflected : Bool) (libIndex : ℕ)
    (VoxID : ℤ) : ℚ :=
  if !wantReflected then lib.count VoxID libIndex else lib.reflCount VoxID libIndex

/-- The per-neighbor accumulation step of the interpolation loop of
`doGetVisibilityOfOpLib` (source lines 460-463): neighbors with the invalid
sentinel ID are skipped, valid ones add `weight * libraryEntry`. -/
def interpStep (e : ℤ → ℚ) (vis : ℚ) (n : NeiInfo) : ℚ :=
  if n.id < 0 then vis else vis + n.weight * e n.id

/-- The contribution of one neighbor to the interpolated sum, written
spec-side: valid IDs contribute `weight * libraryEntry`, invalid IDs zero. -/
def interpTerm (e : ℤ → ℚ) (n : NeiInfo) : ℚ :=
  if 0 ≤ n.id then n.weight * e n.id else 0

/-- The body of `PhotonVisibilityService::doGetVisibilityOfOpLib` (source
lines 447-465) once the library is available: direct lookup without
interpolation, otherwise the weighted sum over the neighbor query (0 when the
point is outside the interpolation domain). -/
def PhotonVisibilityService.doGetVisibilityOfOpLibPure (s : PhotonVisibilityService)
    (lib : PhotonLibrary) (p : Point_t) (libIndex : ℕ) (wantReflected : Bool) : ℚ :=
  if !s.fInterpolate then getLibraryEntryPure lib wantReflected libIndex (s.VoxelAt p)
  else
    match s.fVoxelDef.GetNeighboringVoxelIDs (s.LibLocation p) with
    | none => 0
    | some neis => neis.foldl (interpStep (getLibraryEntryPure lib wantReflected libIndex)) 0

/-- `PhotonVisibilityService::doGetVisibilityOfOpLib` (source lines 447-465),
with the lazy library load of `GetLibraryEntry` hoisted in front of the loop
(`LoadLibrary` is idempotent, so the first access fixes the library for the
whole query); dereferencing a library that is still null is the error case. -/
def PhotonVisibilityService.doGetVisibilityOfOpLib (env : Env) (s : PhotonVisibilityService)
    (p : Point_t) (libIndex : ℕ) (wantReflected : Bool) : Except String ℚ := do
  let s' ← s.LoadLibrary env
  match s'.fTheLibrary with
  | none => .error "null library dereference"
  | some lib => .ok (s'.doGetVisibilityOfOpLibPure lib p libIndex wantReflected)

/-- `PhotonVisibilityService::HasLibraryEntries` (source lines 543-549): the
`wantReflected` argument is accepted but unused. -/
def PhotonVisibilityService.HasLibraryEntries (env : Env) (s : PhotonVisibilityService)
    (VoxID : ℤ) (wantReflected : Bool) : Except String Bool := do
  let s' ← s.LoadLibrary env
  match s'.fTheLibrary with
  | none => .error "null library dereference"
  | some lib => .ok (lib.validVoxel VoxID)

/-- `PhotonVisibilityService::doHasVisibility` (source lines 469-474). -/
def PhotonVisibilityService.doHasVisibility (env : Env) (s : PhotonVisibilityService)
    (p : Point_t) (wantReflected : Bool) : Except String Bool :=
  s.HasLibraryEntries env (s.VoxelAt p) wantReflected

/-- `PhotonVisibilityService::StoreLightProd` (source lines 490-497). -/
def PhotonVisibilityService.StoreLightProd (s : PhotonVisibilityService) (VoxID : ℤ)
    (N : ℚ) : PhotonVisibilityService :=
  { s with fCurrentVoxel := VoxID, fCurrentValue := N }

/-- `PhotonVisibilityService::RetrieveLightProd` (source lines 501-506): a
`const` read of the latch through output parameters, modelled as returning
the pair together with the (unchanged) state. -/
def PhotonVisibilityService.RetrieveLightProd (s : PhotonVisibilityService) :
    (ℤ × ℚ) × PhotonVisibilityService :=
  ((s.fCurrentVoxel, s.fCurrentValue), s)

/-- `PhotonVisibilityService::SetLibraryEntry` (source lines 510-526): lazy
library creation happens before the library pointer is used. -/
def PhotonVisibilityService.SetLibraryEntry (env : Env) (s : PhotonVisibilityService)
    (VoxID : ℤ) (OpChannel : ℕ) (N : ℚ) (wantReflected : Bool) :
    Except String PhotonVisibilityService := do
  let s' ← s.LoadLibrary env
  match s'.fTheLibrary with
  | none => .error "null library dereference"
  | some lib =>
    .ok { s' with fTheLibrary := some (if !wantReflected then lib.SetCount VoxID OpChannel N
                                       else lib.SetReflCount VoxID OpChannel N) }

/-- `PhotonVisibilityService::GetLibraryEntries` (source lines 530-539). -/
def PhotonVisibilityService.GetLibraryEntries (env : Env) (s : PhotonVisibilityService)
    (VoxID : ℤ) (wantReflected : Bool) :
    Except String (PhotonVisibilityService × (ℕ → ℚ)) := do
  let s' ← s.LoadLibrary env
  match s'.fTheLibrary with
  | none => .error "null library dereference"
  | some lib => .ok (s', if !wantReflected then lib.count VoxID else lib.reflCount VoxID)

/-- `PhotonVisibilityService::SetLibraryReflT0Entry` (source lines 592-602):
NOTE the source captures `lib` by `dynamic_cast` of `fTheLibrary` BEFORE the
lazy `LoadLibrary` call, so a first write goes through the stale (null)
pointer. -/
def PhotonVisibilityService.SetLibraryReflT0Entry (env : Env) (s : PhotonVisibilityService)
    (VoxID : ℤ) (OpChannel : ℕ) (T0 : ℚ) : Except String PhotonVisibilityService := do
  let lib := s.fTheLibrary
  let s' ← s.LoadLibrary env
  match lib with
  | none => .error "null library dereference"
  | some l => .ok { s' with fTheLibrary := some (l.SetReflT0 VoxID OpChannel T0) }

/-- `PhotonVisibilityService::GetLibraryReflT0Entries` (source lines
582-588). -/
def PhotonVisibilityService.GetLibraryReflT0Entries (env : Env) (s : PhotonVisibilityService)
    (VoxID : ℤ) : Except String (PhotonVisibilityService × (ℕ → ℚ)) := do
  let s' ← s.LoadLibrary env
  match s'.fTheLibrary with
  | none => .error "null library dereference"
  | some lib => .ok (s', lib.reflT0 VoxID)

/-- `PhotonVisibilityService::doGetReflT0s` (source lines 571-578):
resolve the voxel, fetch the entries, apply the sensor mapping. -/
def PhotonVisibilityService.doGetReflT0s (env : Env) (s : PhotonVisibilityService)
    (p : Point_t) : Except String (PhotonVisibilityService × List ℚ) := do
  let VoxID := s.VoxelAt p
  let (s', data) ← s.GetLibraryReflT0Entries env VoxID
  .ok (s', applyOpDetMapping s'.fMapping p data)

/-- `PhotonVisibilityService::GetLibraryTimingParEntries` (source lines
636-643): the `dynamic_cast` again precedes the lazy load. -/
def PhotonVisibilityService.GetLibraryTimingParEntries (env : Env)
    (s : PhotonVisibilityService) (VoxID : ℤ) :
    Except String (PhotonVisibilityService × (ℕ → ℕ → ℚ)) := do
  let lib := s.fTheLibrary
  let s' ← s.LoadLibrary env
  match lib with
  | none => .error "null library dereference"
  | some l => .ok (s', l.timingPar VoxID)

/-- `PhotonVisibilityService::GetLibraryTimingTF1Entries` (source lines
647-654): the `dynamic_cast` again precedes the lazy load. -/
def PhotonVisibilityService.GetLibraryTimingTF1Entries (env : Env)
    (s : PhotonVisibilityService) (VoxID : ℤ) :
    Except String (PhotonVisibilityService × (ℕ → ℕ)) := do
  let lib := s.fTheLibrary
  let s' ← s.LoadLibrary env
  match lib with
  | none => .error "null library dereference"
  | some l => .ok (s', l.timingTF1 VoxID)

/-- `PhotonVisibilityService::doGetTimingPar` (source lines 618-624). -/
def PhotonVisibilityService.doGetTimingPar (env : Env) (s : PhotonVisibilityService)
    (p : Point_t) : Except String (PhotonVisibilityService × List (ℕ → ℚ)) := do
  let VoxID := s.VoxelAt p
  let (s', params) ← s.GetLibraryTimingParEntries env VoxID
  .ok (s', applyOpDetMapping s'.fMapping p params)

/-- `PhotonVisibilityService::doGetTimingTF1` (source lines 626-632). -/
def PhotonVisibilityService.doGetTimingTF1 (env : Env) (s : PhotonVisibilityService)
    (p : Point_t) : Except String (PhotonVisibilityService × List ℕ) := do
  let VoxID := s.VoxelAt p
  let (s', functions) ← s.GetLibraryTimingTF1Entries env VoxID
  .ok (s', applyOpDetMapping s'.fMapping p functions)

/-- `PhotonVisibilityService::SetLibraryTimingParEntry` (source lines
658-671): the `dynamic_cast` precedes the lazy load. -/
def PhotonVisibilityService.SetLibraryTimingParEntry (env : Env)
    (s : PhotonVisibilityService) (VoxID : ℤ) (OpChannel : ℕ) (par : ℚ) (parnum : ℕ) :
    Except String PhotonVisibilityService := do
  let lib := s.fTheLibrary
  let s' ← s.LoadLibrary env
  match lib with
  | none => .error "null library dereference"
  | some l => .ok { s' with fTheLibrary := some (l.SetTimingPar VoxID OpChannel par parnum) }

/-- `PhotonVisibilityService::SetLibraryTimingTF1Entry` (source lines
675-685): the `dynamic_cast` precedes the lazy load. -/
def PhotonVisibilityService.SetLibraryTimingTF1Entry (env : Env)
    (s : PhotonVisibilityService) (VoxID : ℤ) (OpChannel : ℕ) (func : ℕ) :
    Except String PhotonVisibilityService := do
  let lib := s.fTheLibrary
  let s' ← s.LoadLibrary env
  match lib with
  | none => .error "null library dereference"
  | some l => .ok { s' with fTheLibrary := some (l.SetTimingTF1 VoxID OpChannel func) }

/-- `PhotonVisibilityService::GetQuenchingFactor` (source lines 387-393): no
quenching for now; `const` member, modelled as also returning the state. -/
def PhotonVisibilityService.GetQuenchingFactor (s : PhotonVisibilityService) (dQdx : ℚ) :
    ℚ × PhotonVisibilityService :=
  (1, s)

/-- The center of voxel `(i, j, k)` of a grid. -/
def voxelCenter (vd : PhotonVoxelDef) (i j k : ℕ) : Point_t :=
  ⟨vd.xmin + ((i : ℚ) + 1/2) * vd.stepX,
   vd.ymin + ((j : ℚ) + 1/2) * vd.stepY,
   vd.zmin + ((k : ℚ) + 1/2) * vd.stepZ⟩

/-- Decidable check that a point lies strictly inside the interior of a
single voxel, away from every voxel face: inside the grid volume and with no
voxel-step coordinate on a grid plane (an integer). -/
def strictlyInsideVoxel (vd : PhotonVoxelDef) (p : Point_t) : Bool :=
  decide (vd.inVolume p) && decide (vd.rX p ≠ (⌊vd.rX p⌋ : ℚ)) &&
    decide (vd.rY p ≠ (⌊vd.rY p⌋ : ℚ)) && decide (vd.rZ p ≠ (⌊vd.rZ p⌋ : ℚ))

/-- Fold a sequence of `StoreLightProd` calls over a service state. -/
def applyStores (s : PhotonVisibilityService) (l : List (ℤ × ℚ)) : PhotonVisibilityService :=
  l.foldl (fun t vn => t.StoreLightProd vn.1 vn.2) s

/-- The final state of a successful stateful operation (`initialPVS` when it
failed). -/
def resultState (r : Except String PhotonVisibilityService) : PhotonVisibilityService :=
  match r with
  | .ok s => s
  | .error _ => initialPVS

/-- The operation succeeded and logged the given warning. -/
def warnedOk (r : Except String PhotonVisibilityService) (w : String) : Prop :=
  ∃ s, r = .ok s ∧ w ∈ s.warnings

/-- A 2x2x2 unit-voxel grid over the box from 0 to 2 on each axis, used by
the concrete witness instances. -/
def sampleVd : PhotonVoxelDef := ⟨0, 2, 0, 2, 0, 2, 2, 2, 2⟩

/-- A different voxel definition, used as mismatching library metadata. -/
def mismatchedVd : PhotonVoxelDef := ⟨0, 4, 0, 4, 0, 4, 4, 4, 4⟩

/-- A concrete loaded library: direct counts 10 in voxel 0 and 2 in voxel 1,
zero elsewhere; all eight voxels valid; metadata matching `sampleVd`. -/
def sampleLib : PhotonLibrary where
  nVoxels := 8
  nOpDets := 1
  hasReflected := false
  hasReflT0 := false
  nTimingPars := 0
  count := fun v _ => if v = 0 then 10 else if v = 1 then 2 else 0
  reflCount := fun _ _ => 0
  reflT0 := fun _ _ => 0
  timingPar := fun _ _ _ => 0
  timingTF1 := fun _ _ => 0
  validVoxel := fun v => decide (0 ≤ v ∧ v < 8)
  voxelDef := some sampleVd

/-- The sample library carrying mismatching voxel-definition metadata. -/
def mismatchLib : PhotonLibrary := { sampleLib with voxelDef := some mismatchedVd }

/-- A concrete environment: the persisted file is found and parses to
`sampleLib`; one optical detector. -/
def sampleEnv : Env where
  fileFound := true
  fileLibrary := sampleLib
  nOpDets := 1
  cryoBounds := (0, 2, 0, 2, 0, 2)
  makeTool := fun _ => identityMapping 1
  hasTFileService := true

/-- The sample environment whose persisted file carries mismatching
voxel-definition metadata. -/
def envMismatch : Env := { sampleEnv with fileLibrary := mismatchLib }

/-- A query-mode service instance over `sampleVd` with the sample library
already loaded, interpolation enabled and the identity mapping. -/
def samplePVS : PhotonVisibilityService :=
  { initialPVS with
    fInterpolate := true
    fVoxelDef := sampleVd
    fTheLibrary := some sampleLib
    fMapping := identityMapping 1 }

/-- The sample service with interpolation disabled: identical to `samplePVS`
in every other field. -/
def samplePVSnoInterp : PhotonVisibilityService := { samplePVS with fInterpolate := false }

/-- The sample service before its first library access. -/
def freshPVS : PhotonVisibilityService := { samplePVS with fTheLibrary := none }

/-- A fresh build-mode service instance (library pointer still null). -/
def buildPVS : PhotonVisibilityService := { freshPVS with fLibraryBuildJob := true }

/-- The point (3/4, 1/2, 1/2): strictly inside voxel 0 of `sampleVd`, away
from every voxel face, but not at the voxel center. -/
def samplePoint : Point_t := ⟨3/4, 1/2, 1/2⟩

/-- A well-formed query-mode parameter set carrying only the legacy
`ReflectOverZeroX` key and no `Mapping` block. -/
def psetLegacy : Pset where
  LibraryBuildJob := some false
  DUNE10ktParameterization := none
  HybridLibrary := none
  LibraryFile := some "lib.root"
  DoNotLoadLibrary := some false
  StoreReflected := none
  StoreReflT0 := none
  IncludePropTime := none
  UseNhitsModel := none
  UseCryoBoundary := some false
  Interpolate := some true
  ReflectOverZeroX := some true
  ParametrisedTimePropagation := none
  ParametrisedTimePropagationNParameters := none
  XMin := some 0
  XMax := some 2
  YMin := some 0
  YMax := some 2
  ZMin := some 0
  ZMax := some 2
  NX := some 2
  NY := some 2
  NZ := some 2
  Mapping := none
  propTimeParams := false
  nhitsParams := false

/-- The same parameter set with both `ReflectOverZeroX` and a `Mapping`
block configured: the mutually-exclusive fatal case. -/
def psetBoth : Pset := { psetLegacy with Mapping := some () }

/-- Unfolding lemma for the `Except` monadic bind on a success value. -/
theorem exceptBind_ok {A B : Type} (a : A) (f : A → Except String B) :
    ((Except.ok a : Except String A) >>= f) = f a := rfl

/-- Once the library pointer is set, `LoadLibrary` short-circuits. -/
theorem LoadLibrary_noop (env : Env) (s : PhotonVisibilityService)
    (hsome : s.fTheLibrary.isSome = true) : s.LoadLibrary env = .ok s := by
  unfold PhotonVisibilityService.LoadLibrary
  simp [hsome]

/-- The skip-the-sentinel accumulation loop computes the sum of the
per-neighbor contributions. -/
theorem foldl_interpStep_eq_sum (e : ℤ → ℚ) (l : List NeiInfo) (a : ℚ) :
    l.foldl (interpStep e) a = a + (l.map (interpTerm e)).sum := by
  induction l generalizing a with
  | nil => simp
  | cons n t ih =>
    simp only [List.foldl_cons, List.map_cons, List.sum_cons, ih]
    unfold interpStep interpTerm
    by_cases h : n.id < 0
    · rw [if_pos h, if_neg (not_le.mpr h)]
      ring
    · rw [if_neg h, if_pos (not_lt.mp h)]
      ring

/-- C1: with interpolation enabled, `doGetVisibilityOfOpLib` returns 0 when
the neighbor query reports the point outside the interpolation domain, and
otherwise returns the sum over the neighbors of `weight × libraryEntry`
restricted to valid (non-negative, non-sentinel) IDs: invalid neighbors
contribute zero and the produced weights are used as they are, with no
renormalization after the exclusion. -/
theorem doGetVisibilityOfOpLib_interpolated (env : Env) (s : PhotonVisibilityService)
    (lib : PhotonLibrary) (p : Point_t) (libIndex : ℕ) (wantReflected : Bool)
    (hload : s.fTheLibrary = some lib) (hint : s.fInterpolate = true) :
    (s.fVoxelDef.GetNeighboringVoxelIDs (s.LibLocation p) = none →
       s.doGetVisibilityOfOpLib env p libIndex wantReflected = .ok 0) ∧
    (∀ neis, s.fVoxelDef.GetNeighboringVoxelIDs (s.LibLocation p) = some neis →
       s.doGetVisibilityOfOpLib env p libIndex wantReflected =
         .ok ((neis.map (interpTerm (getLibraryEntryPure lib wantReflected libIndex))).sum)) := by
  have hLL : s.LoadLibrary env = .ok s := LoadLibrary_noop env s (by simp [hload])
  constructor
  · intro hn
    unfold PhotonVisibilityService.doGetVisibilityOfOpLib
    rw [hLL, exceptBind_ok]
    simp only [hload]
    unfold PhotonVisibilityService.doGetVisibilityOfOpLibPure
    rw [hint, hn]
    rfl
  · intro neis hn
    unfold PhotonVisibilityService.doGetVisibilityOfOpLib
    rw [hLL, exceptBind_ok]
    simp only [hload]
    unfold PhotonVisibilityService.doGetVisibilityOfOpLibPure
    rw [hint, hn]
    simp only [Bool.not_true, Bool.false_eq_true, if_false]
    rw [foldl_interpStep_eq_sum]
    rw [zero_add]

/-- Witness for C1: concrete out-of-domain point, visibility 0. -/
theorem doGetVisibilityOfOpLib_interpolated_witness :
    samplePVS.doGetVisibilityOfOpLib sampleEnv ⟨-5, 0, 0⟩ 0 false = .ok 0 :=
  (doGetVisibilityOfOpLib_interpolated sampleEnv samplePVS sampleLib ⟨-5, 0, 0⟩ 0 false rfl
    rfl).1 (by decide)

/-- C8: `StoreLightProd`/`RetrieveLightProd` form a single-slot latch: after
any sequence of stores, `RetrieveLightProd` returns exactly the voxel/count
pair of the most recent store, and it leaves the state unchanged. -/
theorem storeLightProd_single_slot_latch (s : PhotonVisibilityService)
    (l : List (ℤ × ℚ)) (v : ℤ) (n : ℚ) :
    (applyStores s (l ++ [(v, n)])).RetrieveLightProd =
      ((v, n), applyStores s (l ++ [(v, n)])) ∧
    (∀ t : PhotonVisibilityService,
       t.RetrieveLightProd = ((t.fCurrentVoxel, t.fCurrentValue), t)) := by
  constructor
  · unfold applyStores
    rw [List.foldl_append]
    rfl
  · intro t
    rfl

/-- C10: `GetQuenchingFactor` returns exactly 1 for every `dQdx` input
(quenching is a no-op) and leaves the service state unchanged. -/
theorem getQuenchingFactor_is_identity (s : PhotonVisibilityService) (dQdx dQdx2 : ℚ) :
    s.GetQuenchingFactor dQdx = (1, s) ∧
    s.GetQuenchingFactor dQdx = s.GetQuenchingFactor dQdx2 :=
  ⟨rfl, rfl⟩

/-- C9: `doHasVisibility` ignores its `wantReflected` argument: both variants
return exactly the validity of the resolved voxel in the library. -/
theorem hasVisibility_ignores_wantReflected (env : Env) (s : PhotonVisibilityService)
    (lib : PhotonLibrary) (p : Point_t) (hload : s.fTheLibrary = some lib) :
    (∀ r₁ r₂ : Bool, s.doHasVisibility env p r₁ = s.doHasVisibility env p r₂) ∧
    (∀ r : Bool, s.doHasVisibility env p r = .ok (lib.validVoxel (s.VoxelAt p))) := by
  have hLL : s.LoadLibrary env = .ok s := LoadLibrary_noop env s (by simp [hload])
  constructor
  · intro r₁ r₂
    rfl
  · intro r
    unfold PhotonVisibilityService.doHasVisibility PhotonVisibilityService.HasLibraryEntries
    rw [hLL, exceptBind_ok]
    simp only [hload]

/-- Witness for C9 at a concrete point: both variants agree and equal the
resolved voxel's validity. -/
theorem hasVisibility_ignores_wantReflected_witness :
    samplePVS.doHasVisibility sampleEnv ⟨1, 1, 1⟩ true =
      samplePVS.doHasVisibility sampleEnv ⟨1, 1, 1⟩ false ∧
    samplePVS.doHasVisibility sampleEnv ⟨1, 1, 1⟩ true =
      .ok (sampleLib.validVoxel (samplePVS.VoxelAt ⟨1, 1, 1⟩)) := by
  have h := hasVisibility_ignores_wantReflected sampleEnv samplePVS sampleLib ⟨1, 1, 1⟩ rfl
  exact ⟨h.1 true false, h.2 true⟩

/-- C3 (code bug): on a fresh build-mode service the lazy creation is
triggered by every write, but only `SetLibraryEntry` performs it before using
the library pointer; `SetLibraryReflT0Entry`, `SetLibraryTimingParEntry` and
`SetLibraryTimingTF1Entry` capture the pointer before the lazy load and the
first write dereferences null. -/
theorem first_build_write_dereferences_null :
    buildPVS.fTheLibrary = none ∧
    (buildPVS.SetLibraryEntry sampleEnv 0 0 1 false).isOk = true ∧
    buildPVS.SetLibraryReflT0Entry sampleEnv 0 0 1 = .error "null library dereference" ∧
    buildPVS.SetLibraryTimingParEntry sampleEnv 0 0 1 0 = .error "null library dereference" ∧
    buildPVS.SetLibraryTimingTF1Entry sampleEnv 0 0 7 = .error "null library dereference" :=
  ⟨rfl, rfl, rfl, rfl, rfl⟩

/-- `reconfigure` never touches the library pointer. -/
theorem reconfigure_fTheLibrary (env : Env) (p : Pset) (t : PhotonVisibilityService) :
    ∀ s', PhotonVisibilityService.reconfigure env p t = .ok s' →
      s'.fTheLibrary = t.fTheLibrary := by
  unfold PhotonVisibilityService.reconfigure
  cases p.DoNotLoadLibrary with
  | none => intro s' h; exact absurd h (by simp)
  | some dnl =>
    cases voxelBlock env p t.fVoxelDef with
    | error e => intro s' h; exact absurd h (by simp)
    | ok vd =>
      intro s' h
      split_ifs at h
      all_goals try rw [← Except.ok.inj h]

/-- C4 amended: when a persisted library is loaded, mismatching embedded
metadata is tolerated with only a logged warning and execution continues,
but the loaded definition does not replace the configured one: the service
keeps its configured `fVoxelDef` (which drives every voxel lookup) and the
library keeps its own metadata; when the library carries no metadata, the
configured definition is adopted into the library. -/
theorem loadLibrary_metadata_behaviour (env : Env) (s : PhotonVisibilityService)
    (vd : PhotonVoxelDef) (hnone : s.fTheLibrary = none) (hb : s.fLibraryBuildJob = false)
    (hd : s.fDoNotLoadLibrary = false) (hf : env.fileFound = true)
    (hpar : s.fParameterization = false) (hh : s.fHybrid = false) :
    (env.fileLibrary.voxelDef = some vd → vd ≠ s.fVoxelDef →
       s.LoadLibrary env =
         .ok { s with fTheLibrary := some env.fileLibrary,
                      warnings := s.warnings ++ [geometryMismatchWarning] }) ∧
    (env.fileLibrary.voxelDef = none →
       s.LoadLibrary env =
         .ok { s with
               fTheLibrary := some ({ env.fileLibrary with voxelDef := some s.fVoxelDef }) }) := by
  constructor
  · intro hm hne
    unfold PhotonVisibilityService.LoadLibrary
    simp only [hnone, hb, hd, hf, hpar, hh, hm, Option.isSome_none, Bool.false_eq_true,
      if_false, Bool.not_false, Bool.and_self, if_true, Bool.not_true]
    rw [if_pos (Ne.symm hne)]
  · intro hm
    unfold PhotonVisibilityService.LoadLibrary
    simp only [hnone, hb, hd, hf, hpar, hh, hm, Option.isSome_none, Bool.false_eq_true,
      if_false, Bool.not_false, Bool.and_self, if_true, Bool.not_true]

/-- Witness for the C4 amended theorem: concrete mismatching and
metadata-free loads. -/
theorem loadLibrary_metadata_behaviour_witness :
    freshPVS.LoadLibrary envMismatch =
      .ok { freshPVS with fTheLibrary := some mismatchLib,
                          warnings := freshPVS.warnings ++ [geometryMismatchWarning] } ∧
    freshPVS.LoadLibrary { sampleEnv with fileLibrary := { sampleLib with voxelDef := none } } =
      .ok { freshPVS with
            fTheLibrary := some ({ sampleLib with voxelDef := some freshPVS.fVoxelDef }) } := by
  constructor
  · exact (loadLibrary_metadata_behaviour envMismatch freshPVS mismatchedVd rfl rfl rfl rfl
      rfl rfl).1 rfl (by decide)
  · exact (loadLibrary_metadata_behaviour { sampleEnv with fileLibrary :=
      { sampleLib with voxelDef := none } } freshPVS mismatchedVd rfl rfl rfl rfl rfl rfl).2 rfl

/-- C4 counterexample: with configured grid `sampleVd` and a persisted
library carrying metadata `mismatchedVd`, the load succeeds and logs the
mismatch warning, but the service keeps using the configured definition:
the loaded library's voxel definition does not win. -/
theorem loaded_voxelDef_does_not_win :
    (freshPVS.LoadLibrary envMismatch).isOk = true ∧
    geometryMismatchWarning ∈ (resultState (freshPVS.LoadLibrary envMismatch)).warnings ∧
    (resultState (freshPVS.LoadLibrary envMismatch)).fTheLibrary = some mismatchLib ∧
    mismatchLib.voxelDef = some mismatchedVd ∧
    (resultState (freshPVS.LoadLibrary envMismatch)).fVoxelDef = sampleVd ∧
    sampleVd ≠ mismatchedVd := by
  refine ⟨rfl, ?_, rfl, rfl, rfl, by decide⟩
  show geometryMismatchWarning ∈ [] ++ [geometryMismatchWarning]
  simp

/-- C5: the library load is lazy and idempotent: construction leaves the
library pointer null; once the pointer is set, `LoadLibrary` — called
directly or from a query such as `GetLibraryEntries` — is a no-op leaving
the state and the loaded library unchanged; and a first query-mode access
does populate the pointer. -/
theorem loadLibrary_lazy_and_idempotent (env : Env) (p : Pset)
    (s : PhotonVisibilityService) (lib : PhotonLibrary)
    (hload : s.fTheLibrary = some lib) :
    (∀ s0, construct env p = .ok s0 → s0.fTheLibrary = none) ∧
    s.LoadLibrary env = .ok s ∧
    (∀ VoxID wantReflected, s.GetLibraryEntries env VoxID wantReflected =
       .ok (s, if !wantReflected then lib.count VoxID else lib.reflCount VoxID)) ∧
    (∀ t : PhotonVisibilityService, t.fTheLibrary = none → t.fLibraryBuildJob = false →
       t.fDoNotLoadLibrary = false → env.fileFound = true → t.fParameterization = false →
       ∃ t', t.LoadLibrary env = .ok t' ∧ t'.fTheLibrary.isSome = true) := by
  have hLL : s.LoadLibrary env = .ok s := LoadLibrary_noop env s (by simp [hload])
  refine ⟨?_, hLL, ?_, ?_⟩
  · intro s0 hc
    unfold construct at hc
    cases hr : PhotonVisibilityService.reconfigure env p initialPVS with
    | error e => rw [hr] at hc; simp at hc
    | ok s1 =>
      rw [hr] at hc
      have h1 : s1.fTheLibrary = none := by
        rw [reconfigure_fTheLibrary env p initialPVS s1 hr]; rfl
      by_cases hA : p.ReflectOverZeroX.isSome = true <;>
        by_cases hB : p.Mapping.isSome = true <;>
          simp [hA, hB] at hc <;> (subst hc; simp [h1])
  · intro VoxID wantReflected
    unfold PhotonVisibilityService.GetLibraryEntries
    rw [hLL, exceptBind_ok]
    simp only [hload]
  · intro t h1 h2 h3 h4 h5
    unfold PhotonVisibilityService.LoadLibrary
    simp only [h1, h2, h3, h4, h5, Option.isSome_none, Bool.false_eq_true, if_false,
      Bool.not_false, Bool.and_self, if_true, Bool.not_true]
    by_cases hh : t.fHybrid = true
    · simp [hh]
    · cases hm : env.fileLibrary.voxelDef with
      | none => simp [hh, hm]
      | some vd =>
        by_cases hv : t.fVoxelDef ≠ vd
        · simp [hh, hm, hv]
        · simp [hh, hm, hv]

/-- Witness for C5: the loaded sample service is a fixed point of
`LoadLibrary` and of the query-side load in `GetLibraryEntries`. -/
theorem loadLibrary_lazy_and_idempotent_witness :
    samplePVS.LoadLibrary sampleEnv = .ok samplePVS ∧
    samplePVS.GetLibraryEntries sampleEnv 0 false = .ok (samplePVS, sampleLib.count 0) := by
  have h := loadLibrary_lazy_and_idempotent sampleEnv psetLegacy samplePVS sampleLib rfl
  refine ⟨h.2.1, ?_⟩
  have h3 := h.2.2.1 0 false
  simpa using h3

/-- C6: the timing-metadata queries `doGetReflT0s`, `doGetTimingPar` and
`doGetTimingTF1` all follow the non-interpolated resolve-voxel,
fetch-entries, apply-sensor-mapping pattern, whatever the value of the
`Interpolate` flag: no neighbor interpolation is ever performed. -/
theorem timing_queries_noninterpolated (env : Env) (s : PhotonVisibilityService)
    (lib : PhotonLibrary) (p : Point_t) (hload : s.fTheLibrary = some lib) (b : Bool) :
    ({s with fInterpolate := b}).doGetReflT0s env p =
      .ok ({s with fInterpolate := b},
           applyOpDetMapping s.fMapping p (lib.reflT0 (s.VoxelAt p))) ∧
    ({s with fInterpolate := b}).doGetTimingPar env p =
      .ok ({s with fInterpolate := b},
           applyOpDetMapping s.fMapping p (lib.timingPar (s.VoxelAt p))) ∧
    ({s with fInterpolate := b}).doGetTimingTF1 env p =
      .ok ({s with fInterpolate := b},
           applyOpDetMapping s.fMapping p (lib.timingTF1 (s.VoxelAt p))) := by
  have hLL : ({s with fInterpolate := b}).LoadLibrary env = .ok {s with fInterpolate := b} :=
    LoadLibrary_noop env _ (by simp [hload])
  refine ⟨?_, ?_, ?_⟩ <;>
    simp only [PhotonVisibilityService.doGetReflT0s, PhotonVisibilityService.doGetTimingPar,
      PhotonVisibilityService.doGetTimingTF1, PhotonVisibilityService.GetLibraryReflT0Entries,
      PhotonVisibilityService.GetLibraryTimingParEntries,
      PhotonVisibilityService.GetLibraryTimingTF1Entries, hLL, exceptBind_ok, hload] <;>
    rfl

/-- Witness for C6: concrete reflected-T0 query with interpolation enabled
still follows the non-interpolated pattern. -/
theorem timing_queries_noninterpolated_witness :
    ({samplePVS with fInterpolate := true}).doGetReflT0s sampleEnv ⟨1, 1, 1⟩ =
      .ok ({samplePVS with fInterpolate := true},
           applyOpDetMapping samplePVS.fMapping ⟨1, 1, 1⟩
             (sampleLib.reflT0 (samplePVS.VoxelAt ⟨1, 1, 1⟩))) :=
  (timing_queries_noninterpolated sampleEnv samplePVS sampleLib ⟨1, 1, 1⟩ rfl true).1

/-- C7: configuring both the legacy `ReflectOverZeroX` key and a `Mapping`
tool block makes construction fail (a fatal configuration error); the legacy
key alone — with a configuration that otherwise parses — leaves construction
successful with the legacy warning logged. -/
theorem reflectOverZeroX_mapping_exclusive (env : Env) (p : Pset)
    (hrefl : p.ReflectOverZeroX.isSome = true) :
    (p.Mapping.isSome = true → (construct env p).isOk = false) ∧
    (p.Mapping = none →
       (PhotonVisibilityService.reconfigure env p initialPVS).isOk = true →
       warnedOk (construct env p) legacyReflectWarning) := by
  constructor
  · intro hmap
    unfold construct
    cases hr : PhotonVisibilityService.reconfigure env p initialPVS with
    | error e => rfl
    | ok s => simp [hrefl, hmap, Except.isOk, Except.toBool]
  · intro hm hok
    cases hr : PhotonVisibilityService.reconfigure env p initialPVS with
    | error e => rw [hr] at hok; simp [Except.isOk, Except.toBool] at hok
    | ok s =>
      unfold construct warnedOk
      rw [hr]
      simp [hm, hrefl]

/-- Witness for C7: the concrete doubly-configured parameter set is rejected;
the legacy-only one constructs with the warning logged. -/
theorem reflectOverZeroX_mapping_exclusive_witness :
    (construct sampleEnv psetBoth).isOk = false ∧
    warnedOk (construct sampleEnv psetLegacy) legacyReflectWarning := by
  constructor
  · exact (reflectOverZeroX_mapping_exclusive sampleEnv psetBoth rfl).1 rfl
  · exact (reflectOverZeroX_mapping_exclusive sampleEnv psetLegacy rfl).2 rfl rfl

/-- Voxel-step coordinates of the sample point along x. -/
theorem sample_rX : sampleVd.rX samplePoint = 3/4 := by
  norm_num [PhotonVoxelDef.rX, PhotonVoxelDef.stepX, sampleVd, samplePoint]

/-- Voxel-step coordinates of the sample point along y. -/
theorem sample_rY : sampleVd.rY samplePoint = 1/2 := by
  norm_num [PhotonVoxelDef.rY, PhotonVoxelDef.stepY, sampleVd, samplePoint]

/-- Voxel-step coordinates of the sample point along z. -/
theorem sample_rZ : sampleVd.rZ samplePoint = 1/2 := by
  norm_num [PhotonVoxelDef.rZ, PhotonVoxelDef.stepZ, sampleVd, samplePoint]

/-- The sample point lies inside the sample grid volume. -/
theorem sample_inVolume : sampleVd.inVolume samplePoint := by
  refine ⟨?_, ?_, ?_, ?_, ?_, ?_⟩ <;> norm_num [sampleVd, samplePoint]

/-- Floor of 3/4. -/
theorem floor_three_quarters : (⌊(3/4 : ℚ)⌋ : ℤ) = 0 := by norm_num [Int.floor_eq_iff]

/-- Floor of 1/2. -/
theorem floor_one_half : (⌊(1/2 : ℚ)⌋ : ℤ) = 0 := by norm_num [Int.floor_eq_iff]

/-- The neighbor query at the sample point: all 8 neighbors valid, weights
3/4 and 1/4 on voxels 0 and 1, zero on the rest. -/
theorem sample_neighbors : sampleVd.GetNeighboringVoxelIDs samplePoint =
    some [⟨0, 3/4⟩, ⟨4, 0⟩, ⟨2, 0⟩, ⟨6, 0⟩, ⟨1, 1/4⟩, ⟨5, 0⟩, ⟨3, 0⟩, ⟨7, 0⟩] := by
  unfold PhotonVoxelDef.GetNeighboringVoxelIDs
  rw [if_pos sample_inVolume]
  rw [sample_rX, sample_rY, sample_rZ]
  norm_num [PhotonVoxelDef.neiCorner, Int.floor_eq_iff, sampleVd, abs_of_nonneg]

/-- The sample point resolves to voxel 0. -/
theorem sample_voxelID : sampleVd.GetVoxelID samplePoint = 0 := by
  unfold PhotonVoxelDef.GetVoxelID
  rw [sample_rX, sample_rY, sample_rZ, floor_three_quarters, floor_one_half]
  norm_num

/-- Interpolated visibility at the sample point: 3/4 x 10 + 1/4 x 2 = 8. -/
theorem sample_interpolated_visibility :
    samplePVS.doGetVisibilityOfOpLib sampleEnv samplePoint 0 false = .ok 8 := by
  have hneis2 : samplePVS.fVoxelDef.GetNeighboringVoxelIDs (samplePVS.LibLocation samplePoint) =
      some [⟨0, 3/4⟩, ⟨4, 0⟩, ⟨2, 0⟩, ⟨6, 0⟩, ⟨1, 1/4⟩, ⟨5, 0⟩, ⟨3, 0⟩, ⟨7, 0⟩] :=
    sample_neighbors
  have hi : samplePVS.fInterpolate = true := rfl
  have hpure : samplePVS.doGetVisibilityOfOpLibPure sampleLib samplePoint 0 false = 8 := by
    unfold PhotonVisibilityService.doGetVisibilityOfOpLibPure
    simp only [hi, Bool.not_true, Bool.false_eq_true, if_false]
    rw [hneis2]
    norm_num [interpStep, getLibraryEntryPure, sampleLib]
  unfold PhotonVisibilityService.doGetVisibilityOfOpLib
  rw [LoadLibrary_noop sampleEnv samplePVS rfl, exceptBind_ok]
  have hlib : samplePVS.fTheLibrary = some sampleLib := rfl
  simp only [hlib, hpure]

/-- Non-interpolated visibility at the sample point: the voxel-0 entry, 10. -/
theorem sample_noninterpolated_visibility :
    samplePVSnoInterp.doGetVisibilityOfOpLib sampleEnv samplePoint 0 false = .ok 10 := by
  have hi : samplePVSnoInterp.fInterpolate = false := rfl
  have hv : samplePVSnoInterp.VoxelAt samplePoint = 0 := sample_voxelID
  have hpure : samplePVSnoInterp.doGetVisibilityOfOpLibPure sampleLib samplePoint 0 false = 10 := by
    unfold PhotonVisibilityService.doGetVisibilityOfOpLibPure
    simp only [hi, Bool.not_false, if_true]
    rw [hv]
    norm_num [getLibraryEntryPure, sampleLib]
  unfold PhotonVisibilityService.doGetVisibilityOfOpLib
  rw [LoadLibrary_noop sampleEnv samplePVSnoInterp rfl, exceptBind_ok]
  have hlib : samplePVSnoInterp.fTheLibrary = some sampleLib := rfl
  simp only [hlib, hpure]

/-- The sample point is strictly inside the interior of voxel 0. -/
theorem sample_strictlyInside : strictlyInsideVoxel sampleVd samplePoint = true := by
  simp only [strictlyInsideVoxel, Bool.and_eq_true, decide_eq_true_eq]
  refine ⟨⟨⟨sample_inVolume, ?_⟩, ?_⟩, ?_⟩
  · rw [sample_rX, floor_three_quarters]; norm_num
  · rw [sample_rY, floor_one_half]; norm_num
  · rw [sample_rZ, floor_one_half]; norm_num

/-- C2 counterexample: at the point (3/4, 1/2, 1/2), strictly inside the
interior of voxel 0 of the sample grid and away from every voxel face, two
services identical except for the `Interpolate` flag disagree: the
interpolated query mixes the centers of voxels 0 and 1 (weights 3/4 and 1/4)
and returns 8, the non-interpolated query returns the voxel-0 entry 10. -/
theorem interpolation_not_constant_inside_voxel :
    strictlyInsideVoxel sampleVd samplePoint = true ∧
    samplePVSnoInterp = { samplePVS with fInterpolate := false } ∧
    samplePVS.doGetVisibilityOfOpLib sampleEnv samplePoint 0 false = .ok 8 ∧
    samplePVSnoInterp.doGetVisibilityOfOpLib sampleEnv samplePoint 0 false = .ok 10 ∧
    (8 : ℚ) ≠ 10 :=
  ⟨sample_strictlyInside, rfl, sample_interpolated_visibility,
   sample_noninterpolated_visibility, by norm_num⟩

/-- Floor of a voxel-step coordinate at a voxel center shifted by a corner
offset. -/
theorem floor_center_step (m : ℕ) (d : ℤ) : ⌊(m : ℚ) + 1/2 + (d : ℚ) - 1/2⌋ = m + d := by
  have h : (m : ℚ) + 1/2 + (d : ℚ) - 1/2 = (((m : ℤ) + d : ℤ) : ℚ) := by push_cast; ring
  rw [h, Int.floor_intCast]

/-- The per-axis trilinear factor at a voxel center reduces to `1 - |d|`. -/
theorem center_factor (m : ℕ) (d : ℤ) :
    (1 : ℚ) - |(((m : ℤ) + d : ℤ) : ℚ) + 1/2 - ((m : ℚ) + 1/2)| = 1 - |(d : ℚ)| := by
  have h : (((m : ℤ) + d : ℤ) : ℚ) + 1/2 - ((m : ℚ) + 1/2) = (d : ℚ) := by push_cast; ring
  rw [h]

/-- Floor of `m + 1/2` for a natural `m`. -/
theorem floor_natCast_add_half (m : ℕ) : ⌊(m : ℚ) + 1/2⌋ = (m : ℤ) := by
  rw [Int.floor_eq_iff]
  constructor
  · push_cast
    linarith
  · push_cast
    linarith

/-- Every corner other than `(0,0,0)` of the interpolation cube around a
voxel center contributes zero: it is either the invalid sentinel or carries
a vanishing trilinear weight. -/
theorem interpTerm_center_corner_zero (vd : PhotonVoxelDef) (e : ℤ → ℚ) (i j k : ℕ)
    (dx dy dz : ℤ) (hdx : dx = 0 ∨ dx = 1) (hdy : dy = 0 ∨ dy = 1) (hdz : dz = 0 ∨ dz = 1)
    (hne : ¬(dx = 0 ∧ dy = 0 ∧ dz = 0)) :
    interpTerm e (vd.neiCorner ((i : ℚ) + 1/2) ((j : ℚ) + 1/2) ((k : ℚ) + 1/2) dx dy dz) = 0 := by
  unfold PhotonVoxelDef.neiCorner
  simp only [floor_center_step, center_factor]
  split_ifs with h
  · simp [interpTerm]
  · unfold interpTerm
    split_ifs with h2
    · rcases hdx with rfl | rfl <;> rcases hdy with rfl | rfl <;> rcases hdz with rfl | rfl
      · exact absurd ⟨rfl, rfl, rfl⟩ hne
      all_goals push_cast
      all_goals norm_num
    · rfl

/-- The `(0,0,0)` corner at a voxel center is the center voxel itself with
full weight 1. -/
theorem neiCorner_center_000 (vd : PhotonVoxelDef) (i j k : ℕ)
    (hi : i < vd.nx) (hj : j < vd.ny) (hk : k < vd.nz) :
    vd.neiCorner ((i : ℚ) + 1/2) ((j : ℚ) + 1/2) ((k : ℚ) + 1/2) 0 0 0 =
      ⟨(i : ℤ) + (j : ℤ) * vd.nx + (k : ℤ) * (vd.nx * vd.ny), 1⟩ := by
  unfold PhotonVoxelDef.neiCorner
  simp only [floor_center_step, center_factor]
  rw [if_neg]
  · simp only [NeiInfo.mk.injEq]
    constructor
    · push_cast; ring
    · norm_num
  · push_cast
    omega

/-- Voxel-step x coordinate of a voxel center. -/
theorem rX_voxelCenter (vd : PhotonVoxelDef) (i j k : ℕ) (hx : vd.xmin < vd.xmax)
    (hnx : 0 < vd.nx) : vd.rX (voxelCenter vd i j k) = (i : ℚ) + 1/2 := by
  have hsx : vd.stepX ≠ 0 := by
    unfold PhotonVoxelDef.stepX
    have hnx' : (0 : ℚ) < vd.nx := by exact_mod_cast hnx
    exact ne_of_gt (div_pos (by linarith) hnx')
  unfold PhotonVoxelDef.rX voxelCenter
  rw [show vd.xmin + ((i : ℚ) + 1/2) * vd.stepX - vd.xmin = ((i : ℚ) + 1/2) * vd.stepX
    from by ring]
  exact mul_div_cancel_right₀ _ hsx

/-- Voxel-step y coordinate of a voxel center. -/
theorem rY_voxelCenter (vd : PhotonVoxelDef) (i j k : ℕ) (hy : vd.ymin < vd.ymax)
    (hny : 0 < vd.ny) : vd.rY (voxelCenter vd i j k) = (j : ℚ) + 1/2 := by
  have hsy : vd.stepY ≠ 0 := by
    unfold PhotonVoxelDef.stepY
    have hny' : (0 : ℚ) < vd.ny := by exact_mod_cast hny
    exact ne_of_gt (div_pos (by linarith) hny')
  unfold PhotonVoxelDef.rY voxelCenter
  rw [show vd.ymin + ((j : ℚ) + 1/2) * vd.stepY - vd.ymin = ((j : ℚ) + 1/2) * vd.stepY
    from by ring]
  exact mul_div_cancel_right₀ _ hsy

/-- Voxel-step z coordinate of a voxel center. -/
theorem rZ_voxelCenter (vd : PhotonVoxelDef) (i j k : ℕ) (hz : vd.zmin < vd.zmax)
    (hnz : 0 < vd.nz) : vd.rZ (voxelCenter vd i j k) = (k : ℚ) + 1/2 := by
  have hsz : vd.stepZ ≠ 0 := by
    unfold PhotonVoxelDef.stepZ
    have hnz' : (0 : ℚ) < vd.nz := by exact_mod_cast hnz
    exact ne_of_gt (div_pos (by linarith) hnz')
  unfold PhotonVoxelDef.rZ voxelCenter
  rw [show vd.zmin + ((k : ℚ) + 1/2) * vd.stepZ - vd.zmin = ((k : ℚ) + 1/2) * vd.stepZ
    from by ring]
  exact mul_div_cancel_right₀ _ hsz

/-- A voxel center resolves to its own row-major voxel ID. -/
theorem GetVoxelID_voxelCenter (vd : PhotonVoxelDef) (i j k : ℕ)
    (hx : vd.xmin < vd.xmax) (hy : vd.ymin < vd.ymax) (hz : vd.zmin < vd.zmax)
    (hnx : 0 < vd.nx) (hny : 0 < vd.ny) (hnz : 0 < vd.nz) :
    vd.GetVoxelID (voxelCenter vd i j k) =
      (i : ℤ) + (j : ℤ) * vd.nx + (k : ℤ) * (vd.nx * vd.ny) := by
  unfold PhotonVoxelDef.GetVoxelID
  rw [rX_voxelCenter vd i j k hx hnx, rY_voxelCenter vd i j k hy hny,
    rZ_voxelCenter vd i j k hz hnz, floor_natCast_add_half, floor_natCast_add_half,
    floor_natCast_add_half]

/-- The center of an in-range voxel lies inside the grid volume. -/
theorem inVolume_voxelCenter (vd : PhotonVoxelDef) (i j k : ℕ)
    (hx : vd.xmin < vd.xmax) (hy : vd.ymin < vd.ymax) (hz : vd.zmin < vd.zmax)
    (hnx : 0 < vd.nx) (hny : 0 < vd.ny) (hnz : 0 < vd.nz)
    (hi : i < vd.nx) (hj : j < vd.ny) (hk : k < vd.nz) :
    vd.inVolume (voxelCenter vd i j k) := by
  have hsx : 0 < vd.stepX := by
    unfold PhotonVoxelDef.stepX
    have hnx' : (0 : ℚ) < vd.nx := by exact_mod_cast hnx
    exact div_pos (by linarith) hnx'
  have hsy : 0 < vd.stepY := by
    unfold PhotonVoxelDef.stepY
    have hny' : (0 : ℚ) < vd.ny := by exact_mod_cast hny
    exact div_pos (by linarith) hny'
  have hsz : 0 < vd.stepZ := by
    unfold PhotonVoxelDef.stepZ
    have hnz' : (0 : ℚ) < vd.nz := by exact_mod_cast hnz
    exact div_pos (by linarith) hnz'
  have hnx' : (vd.nx : ℚ) ≠ 0 := by
    have : (0 : ℚ) < vd.nx := by exact_mod_cast hnx
    linarith
  have hny' : (vd.ny : ℚ) ≠ 0 := by
    have : (0 : ℚ) < vd.ny := by exact_mod_cast hny
    linarith
  have hnz' : (vd.nz : ℚ) ≠ 0 := by
    have : (0 : ℚ) < vd.nz := by exact_mod_cast hnz
    linarith
  have hnex : (vd.nx : ℚ) * vd.stepX = vd.xmax - vd.xmin := by
    rw [PhotonVoxelDef.stepX, mul_div_cancel₀ _ hnx']
  have hney : (vd.ny : ℚ) * vd.stepY = vd.ymax - vd.ymin := by
    rw [PhotonVoxelDef.stepY, mul_div_cancel₀ _ hny']
  have hnez : (vd.nz : ℚ) * vd.stepZ = vd.zmax - vd.zmin := by
    rw [PhotonVoxelDef.stepZ, mul_div_cancel₀ _ hnz']
  have hix : ((i : ℚ) + 1/2) * vd.stepX ≤ (vd.nx : ℚ) * vd.stepX := by
    have h1 : (i : ℚ) + 1 ≤ vd.nx := by exact_mod_cast hi
    exact mul_le_mul_of_nonneg_right (by linarith) hsx.le
  have hjy : ((j : ℚ) + 1/2) * vd.stepY ≤ (vd.ny : ℚ) * vd.stepY := by
    have h1 : (j : ℚ) + 1 ≤ vd.ny := by exact_mod_cast hj
    exact mul_le_mul_of_nonneg_right (by linarith) hsy.le
  have hkz : ((k : ℚ) + 1/2) * vd.stepZ ≤ (vd.nz : ℚ) * vd.stepZ := by
    have h1 : (k : ℚ) + 1 ≤ vd.nz := by exact_mod_cast hk
    exact mul_le_mul_of_nonneg_right (by linarith) hsz.le
  have hi0 : (0 : ℚ) ≤ ((i : ℚ) + 1/2) * vd.stepX :=
    mul_nonneg (by positivity) hsx.le
  have hj0 : (0 : ℚ) ≤ ((j : ℚ) + 1/2) * vd.stepY :=
    mul_nonneg (by positivity) hsy.le
  have hk0 : (0 : ℚ) ≤ ((k : ℚ) + 1/2) * vd.stepZ :=
    mul_nonneg (by positivity) hsz.le
  unfold PhotonVoxelDef.inVolume voxelCenter
  refine ⟨by linarith, by linarith, by linarith, by linarith, by linarith, by linarith⟩

/-- The neighbor query at a voxel center: the 8 corners at voxel-step
coordinates `(i + 1/2, j + 1/2, k + 1/2)`. -/
theorem neighbors_voxelCenter (vd : PhotonVoxelDef) (i j k : ℕ)
    (hx : vd.xmin < vd.xmax) (hy : vd.ymin < vd.ymax) (hz : vd.zmin < vd.zmax)
    (hnx : 0 < vd.nx) (hny : 0 < vd.ny) (hnz : 0 < vd.nz)
    (hi : i < vd.nx) (hj : j < vd.ny) (hk : k < vd.nz) :
    vd.GetNeighboringVoxelIDs (voxelCenter vd i j k) =
      some [vd.neiCorner ((i : ℚ) + 1/2) ((j : ℚ) + 1/2) ((k : ℚ) + 1/2) 0 0 0,
            vd.neiCorner ((i : ℚ) + 1/2) ((j : ℚ) + 1/2) ((k : ℚ) + 1/2) 0 0 1,
            vd.neiCorner ((i : ℚ) + 1/2) ((j : ℚ) + 1/2) ((k : ℚ) + 1/2) 0 1 0,
            vd.neiCorner ((i : ℚ) + 1/2) ((j : ℚ) + 1/2) ((k : ℚ) + 1/2) 0 1 1,
            vd.neiCorner ((i : ℚ) + 1/2) ((j : ℚ) + 1/2) ((k : ℚ) + 1/2) 1 0 0,
            vd.neiCorner ((i : ℚ) + 1/2) ((j : ℚ) + 1/2) ((k : ℚ) + 1/2) 1 0 1,
            vd.neiCorner ((i : ℚ) + 1/2) ((j : ℚ) + 1/2) ((k : ℚ) + 1/2) 1 1 0,
            vd.neiCorner ((i : ℚ) + 1/2) ((j : ℚ) + 1/2) ((k : ℚ) + 1/2) 1 1 1] := by
  unfold PhotonVoxelDef.GetNeighboringVoxelIDs
  rw [if_pos (inVolume_voxelCenter vd i j k hx hy hz hnx hny hnz hi hj hk)]
  simp only [rX_voxelCenter vd i j k hx hnx, rY_voxelCenter vd i j k hy hny,
    rZ_voxelCenter vd i j k hz hnz]

/-- At a voxel center the interpolation sum collapses to the center voxel's
library entry. -/
theorem pure_center_eq (vd : PhotonVoxelDef) (e : ℤ → ℚ) (i j k : ℕ)
    (hx : vd.xmin < vd.xmax) (hy : vd.ymin < vd.ymax) (hz : vd.zmin < vd.zmax)
    (hnx : 0 < vd.nx) (hny : 0 < vd.ny) (hnz : 0 < vd.nz)
    (hi : i < vd.nx) (hj : j < vd.ny) (hk : k < vd.nz) :
    (match vd.GetNeighboringVoxelIDs (voxelCenter vd i j k) with
     | none => (0 : ℚ)
     | some neis => neis.foldl (interpStep e) 0) =
      e (vd.GetVoxelID (voxelCenter vd i j k)) := by
  rw [neighbors_voxelCenter vd i j k hx hy hz hnx hny hnz hi hj hk,
    GetVoxelID_voxelCenter vd i j k hx hy hz hnx hny hnz]
  show List.foldl (interpStep e) 0 _ = _
  rw [foldl_interpStep_eq_sum]
  simp only [List.map_cons, List.map_nil, List.sum_cons, List.sum_nil]
  rw [neiCorner_center_000 vd i j k hi hj hk,
    interpTerm_center_corner_zero vd e i j k 0 0 1 (Or.inl rfl) (Or.inl rfl) (Or.inr rfl)
      (by simp),
    interpTerm_center_corner_zero vd e i j k 0 1 0 (Or.inl rfl) (Or.inr rfl) (Or.inl rfl)
      (by simp),
    interpTerm_center_corner_zero vd e i j k 0 1 1 (Or.inl rfl) (Or.inr rfl) (Or.inr rfl)
      (by simp),
    interpTerm_center_corner_zero vd e i j k 1 0 0 (Or.inr rfl) (Or.inl rfl) (Or.inl rfl)
      (by simp),
    interpTerm_center_corner_zero vd e i j k 1 0 1 (Or.inr rfl) (Or.inl rfl) (Or.inr rfl)
      (by simp),
    interpTerm_center_corner_zero vd e i j k 1 1 0 (Or.inr rfl) (Or.inr rfl) (Or.inl rfl)
      (by simp),
    interpTerm_center_corner_zero vd e i j k 1 1 1 (Or.inr rfl) (Or.inr rfl) (Or.inr rfl)
      (by simp)]
  have hpos : (0 : ℤ) ≤ (i : ℤ) + (j : ℤ) * vd.nx + (k : ℤ) * (vd.nx * vd.ny) := by
    positivity
  unfold interpTerm
  rw [if_pos hpos]
  ring

/-- C2 amended: the interpolated and non-interpolated visibility queries
agree (for every sensor) exactly at points mapping to the center of an
in-range voxel, where interpolation degenerates to a single weight-1
neighbor; at a generic point strictly inside a voxel they differ (see the
counterexample). -/
theorem interp_eq_noninterp_at_voxel_center (env : Env) (s : PhotonVisibilityService)
    (lib : PhotonLibrary) (p : Point_t) (i j k : ℕ) (libIndex : ℕ) (wantReflected : Bool)
    (hload : s.fTheLibrary = some lib)
    (hx : s.fVoxelDef.xmin < s.fVoxelDef.xmax)
    (hy : s.fVoxelDef.ymin < s.fVoxelDef.ymax)
    (hz : s.fVoxelDef.zmin < s.fVoxelDef.zmax)
    (hnx : 0 < s.fVoxelDef.nx) (hny : 0 < s.fVoxelDef.ny) (hnz : 0 < s.fVoxelDef.nz)
    (hi : i < s.fVoxelDef.nx) (hj : j < s.fVoxelDef.ny) (hk : k < s.fVoxelDef.nz)
    (hp : s.LibLocation p = voxelCenter s.fVoxelDef i j k) :
    ({s with fInterpolate := true}).doGetVisibilityOfOpLib env p libIndex wantReflected =
      ({s with fInterpolate := false}).doGetVisibilityOfOpLib env p libIndex wantReflected := by
  have hT : ({s with fInterpolate := true}).doGetVisibilityOfOpLib env p libIndex wantReflected
      = .ok (match s.fVoxelDef.GetNeighboringVoxelIDs (s.LibLocation p) with
             | none => (0 : ℚ)
             | some neis =>
               neis.foldl (interpStep (getLibraryEntryPure lib wantReflected libIndex)) 0) := by
    unfold PhotonVisibilityService.doGetVisibilityOfOpLib
    rw [LoadLibrary_noop env _ (by simp [hload]), exceptBind_ok]
    simp only [hload, PhotonVisibilityService.doGetVisibilityOfOpLibPure,
      PhotonVisibilityService.LibLocation, Bool.not_true, Bool.false_eq_true, if_false]
  have hF : ({s with fInterpolate := false}).doGetVisibilityOfOpLib env p libIndex wantReflected
      = .ok (getLibraryEntryPure lib wantReflected libIndex
               (s.fVoxelDef.GetVoxelID (s.LibLocation p))) := by
    unfold PhotonVisibilityService.doGetVisibilityOfOpLib
    rw [LoadLibrary_noop env _ (by simp [hload]), exceptBind_ok]
    simp only [hload, PhotonVisibilityService.doGetVisibilityOfOpLibPure,
      PhotonVisibilityService.VoxelAt, PhotonVisibilityService.LibLocation,
      Bool.not_false, if_true]
  rw [hT, hF, hp,
    pure_center_eq s.fVoxelDef (getLibraryEntryPure lib wantReflected libIndex) i j k
      hx hy hz hnx hny hnz hi hj hk]

/-- Witness for the C2 amended theorem at the center of voxel (0,0,0) of the
sample grid. -/
theorem interp_eq_noninterp_at_voxel_center_witness :
    ({samplePVS with fInterpolate := true}).doGetVisibilityOfOpLib sampleEnv
        ⟨1/2, 1/2, 1/2⟩ 0 false =
      ({samplePVS with fInterpolate := false}).doGetVisibilityOfOpLib sampleEnv
        ⟨1/2, 1/2, 1/2⟩ 0 false := by
  have hp : samplePVS.LibLocation ⟨1/2, 1/2, 1/2⟩ = voxelCenter samplePVS.fVoxelDef 0 0 0 := by
    show (⟨1/2, 1/2, 1/2⟩ : Point_t) = voxelCenter sampleVd 0 0 0
    unfold voxelCenter PhotonVoxelDef.stepX PhotonVoxelDef.stepY PhotonVoxelDef.stepZ
    simp only [sampleVd]
    norm_num
  exact interp_eq_noninterp_at_voxel_center sampleEnv samplePVS sampleLib ⟨1/2, 1/2, 1/2⟩
    0 0 0 0 false rfl (by decide) (by decide) (by decide) (by decide) (by decide) (by decide)
    (by decide) (by decide) (by decide) hp
